import Mathlib

/-!
Verification development for the hossam data-helper TensorFlow wrapper
(src/hossam/tensor.py).  The module's decision-bearing logic — layer-spec
translation in `tf_create`, callback assembly in `tf_train`, the tuner's
hypermodel `__tf_build` and best-candidate selection in `tf_tune`, the
metric-grouping loop of `tf_result`, and the layer-sequence derivation of
`my_tf_linear` — is shallowly embedded below, and the design
specification's claims about it are settled as theorems.
-/

/-- A dense-layer specification record: a Python dict with keys `units`,
`activation`, and optionally `input_shape` (present only on the first
layer), as consumed by `tf_create` and produced by `my_tf_linear`. -/
structure LayerSpec where
  units : Nat
  activation : String
  input_shape : Option (List Nat) := none
  deriving Repr, DecidableEq

/-- A constructed `Dense` layer of the sequential model (the attributes the
spec talks about: unit count, activation, optional input shape). -/
structure DenseLayer where
  units : Nat
  activation : String
  input_shape : Option (List Nat)
  deriving Repr, DecidableEq

/-- A compiled sequential model as assembled by `tf_create`: its layers in
order plus the compilation state (optimizer, loss, metrics). -/
structure CompiledModel where
  layers : List DenseLayer
  optimizer : String
  loss : String
  metrics : List String
  deriving Repr, DecidableEq

/-- Errors this layer can raise: Python `ValueError` (configuration /
search-exhaustion errors) and `NameError` (an unresolvable identifier). -/
inductive TfError where
  | valueError (msg : String)
  | nameError (missing : String)
  deriving Repr, DecidableEq

/-- Framework calls issued by `tf_create`, in order: loading a persisted
model, `Sequential()` construction, `model.add(Dense(...))`, and
`model.compile(...)`. -/
inductive FrameworkCall where
  | loadModel (path : String)
  | sequentialNew
  | addDense (layer : DenseLayer)
  | compileModel (optimizer : String) (loss : String) (metrics : List String)
  deriving Repr, DecidableEq

/-- Python truthiness of an optional string argument defaulting to `None`:
falsy when `None` or the empty string. -/
def truthyStr : Option String → Bool
  | none => false
  | some s => !(s == "")

/-- Python truthiness of an optional list argument defaulting to `None`:
falsy when `None` or the empty list. -/
def truthyList {α : Type} : Option (List α) → Bool
  | none => false
  | some l => !l.isEmpty

/-- The `Dense` layer built from one specification dict inside
`tf_create`'s loop: both branches copy `units` and `activation`, and
`input_shape` is passed exactly when the dict carries it. -/
def specToLayer (v : LayerSpec) : DenseLayer :=
  { units := v.units, activation := v.activation, input_shape := v.input_shape }

/-- Embedding of `tf_create` (src/hossam/tensor.py lines 122-174).
`store` models the filesystem of persisted models read by `load_model`.
Returns the result together with the ordered trace of framework calls
issued.  Mirrors the source: `if model_path: return load_model(model_path)`;
then `if not dense or not loss or not metrics: raise ValueError(...)`;
then the construction loop and `model.compile`. -/
def tf_create (store : String → CompiledModel) (dense : List LayerSpec)
    (optimizer : String) (loss : Option String) (metrics : Option (List String))
    (model_path : Option String) :
    Except TfError CompiledModel × List FrameworkCall :=
  if truthyStr model_path then
    (.ok (store (model_path.getD "")), [.loadModel (model_path.getD "")])
  else if dense.isEmpty || !truthyStr loss || !truthyList metrics then
    (.error (.valueError "dense, loss, and metrics are required arguments"), [])
  else
    let layers := dense.map specToLayer
    (.ok { layers := layers, optimizer := optimizer, loss := loss.getD "",
           metrics := metrics.getD [] },
     .sequentialNew :: layers.map FrameworkCall.addDense ++
       [.compileModel optimizer (loss.getD "") (metrics.getD [])])

/-- A Keras callback as configured by `tf_train`, with the fixed policy
constants baked into that layer (the LR-reduction factor 0.1 is kept as an
exact rational). -/
inductive TfCallback where
  | earlyStopping (patience : Nat) (restore_best_weights : Bool) (verbose : Nat)
  | reduceLROnPlateau (factor : Rat) (patience : Nat) (verbose : Nat)
  | modelCheckpoint (filepath : String) (save_best_only : Bool)
      (save_weights_only : Bool) (verbose : Nat)
  | tensorBoard (log_dir : String) (histogram_freq : Nat) (write_graph : Bool)
  deriving Repr, DecidableEq

/-- The identifiers bound at module scope in src/hossam/tensor.py (its
imported names, lines 1-21, plus module-level definitions).  Note that
`ModelCheckpoint` is absent: the callbacks import (lines 9-14) brings in
only `History`, `EarlyStopping`, `ReduceLROnPlateau` and `TensorBoard`. -/
def tensorModuleScope : List String :=
  ["np", "dt", "set_seed", "GlorotUniform", "Sequential", "load_model",
   "Dense", "History", "EarlyStopping", "ReduceLROnPlateau", "TensorBoard",
   "Adam", "DataFrame", "plt", "my_pretty_table", "get_random_state",
   "Hyperband", "tf_tune", "tf_create", "tf_train", "tf_result", "my_tf",
   "my_tf_linear"]

/-- Python name resolution for a callback-class constructor: evaluating an
identifier not bound in the module scope raises `NameError`. -/
def resolveCallback (name : String) (cb : TfCallback) : Except TfError TfCallback :=
  if tensorModuleScope.contains name then .ok cb else .error (.nameError name)

/-- One conditional `callbacks.append(Class(...))` step of `tf_train`:
skipped when the flag is falsy, otherwise the class name is resolved and
the configured callback appended (a `NameError` aborts the function). -/
def appendCallbackIf (acc : Except TfError (List TfCallback)) (cond : Bool)
    (name : String) (cb : TfCallback) : Except TfError (List TfCallback) :=
  match acc with
  | .error e => .error e
  | .ok cbs =>
    if cond then
      match resolveCallback name cb with
      | .error e => .error e
      | .ok c => .ok (cbs ++ [c])
    else .ok cbs

/-- Embedding of `tf_train`'s callback assembly (src/hossam/tensor.py
lines 211-234): start from `callbacks = []`, then append, in order,
`EarlyStopping(patience=10, restore_best_weights=True)`,
`ReduceLROnPlateau(factor=0.1, patience=5)`,
`ModelCheckpoint(filepath=checkpoint_path, save_best_only=True,
save_weights_only=True)` and `TensorBoard(log_dir=tensorboard_path,
histogram_freq=1, write_graph=True)`, each guarded by its flag. -/
def tf_train_callbacks (early_stopping reduce_lr : Bool)
    (checkpoint_path tensorboard_path : Option String) (verbose : Nat) :
    Except TfError (List TfCallback) :=
  appendCallbackIf
    (appendCallbackIf
      (appendCallbackIf
        (appendCallbackIf (.ok []) early_stopping "EarlyStopping"
          (.earlyStopping 10 true verbose))
        reduce_lr "ReduceLROnPlateau" (.reduceLROnPlateau (1 / 10) 5 verbose))
      (truthyStr checkpoint_path) "ModelCheckpoint"
      (.modelCheckpoint (checkpoint_path.getD "") true true verbose))
    (truthyStr tensorboard_path) "TensorBoard"
    (.tensorBoard (tensorboard_path.getD "") 1 true)

/-- The `model.fit` invocation as issued by `tf_train` (src/hossam/tensor.py
lines 236-244): epochs, batch size, the assembled callback list, and
whether validation data was attached. -/
structure FitInvocation where
  epochs : Nat
  batch_size : Nat
  callbacks : List TfCallback
  has_validation_data : Bool
  deriving Repr, DecidableEq

/-- Embedding of `tf_train` up to and including the `model.fit` call:
either the callback assembly raises (the error propagates and `fit` is
never reached) or `fit` is invoked with the assembled callbacks. -/
def tf_train_fit (early_stopping reduce_lr : Bool)
    (checkpoint_path tensorboard_path : Option String)
    (epochs batch_size verbose : Nat) (has_x_test : Bool) :
    Except TfError FitInvocation :=
  match tf_train_callbacks early_stopping reduce_lr checkpoint_path
      tensorboard_path verbose with
  | .error e => .error e
  | .ok cbs =>
    .ok { epochs := epochs, batch_size := batch_size, callbacks := cbs,
          has_validation_data := has_x_test }

/-- The columns considered by `tf_result`'s grouping (src/hossam/tensor.py
lines 279-283).  `DataFrame(result.history)` has the history's keys as
columns; `result_df["epochs"] = result_df.index + 1` appends an `epochs`
column (overwriting in place if one exists);
`result_df.set_index("epochs", inplace=True)` then removes that column
into the index; finally `columns = result_df.columns[:-1]` keeps all but
the last remaining column. -/
def tf_result_columns (history_keys : List String) : List String :=
  let with_epochs :=
    if history_keys.contains "epochs" then history_keys
    else history_keys ++ ["epochs"]
  let after_set_index := with_epochs.filter (fun k => !(k == "epochs"))
  after_set_index.dropLast

/-- `columns[i][:3] == "val"`: the first three characters form `"val"`. -/
def startsWithVal (s : String) : Bool := s.data.take 3 == "val".data

/-- The grouping loop of `tf_result` (src/hossam/tensor.py lines 288-303):
`for i in range(0, s - 1)`, stopping the whole loop (`break`) at the first
column whose first three characters are `"val"`; otherwise the column is
paired with `f"val_{columns[i]}"` when that name occurs among the later
columns (`c2 = list(columns[i+1:])`), else kept as a singleton.  `fuel`
counts the remaining iterations of `range(0, s - 1)`. -/
def tf_result_groupLoop (columns : List String) (i fuel : Nat) :
    List (List String) :=
  match fuel with
  | 0 => []
  | f + 1 =>
    match columns.get? i with
    | none => []
    | some c =>
      if startsWithVal c then []
      else
        let t := "val_" ++ c
        let c2 := columns.drop (i + 1)
        if c2.contains t then [c, t] :: tf_result_groupLoop columns (i + 1) f
        else [c] :: tf_result_groupLoop columns (i + 1) f

/-- The metric groups `group_names` computed by `tf_result` from a
training-history record's key list. -/
def tf_result_groups (history_keys : List String) : List (List String) :=
  let columns := tf_result_columns history_keys
  tf_result_groupLoop columns 0 (columns.length - 1)

/-- `cols = len(group_names)`: the number of subplot columns `tf_result`
requests from `plt.subplots(1, cols, ...)`. -/
def tf_result_cols (history_keys : List String) : Nat :=
  (tf_result_groups history_keys).length

/-- The subplot grid actually obtained: `plt.subplots(1, cols)` yields
`cols` axes when `cols` is positive and raises `ValueError` when the
grouping produced zero groups (a grid needs a positive column count). -/
def tf_result_subplot_count (history_keys : List String) : Except TfError Nat :=
  let cols := tf_result_cols history_keys
  if cols == 0 then
    .error (.valueError "Number of columns must be a positive integer")
  else .ok cols

/-- A kerastuner trial's hyperparameter assignment.  Within one trial,
`hp.Choice(name, values)` returns the single value the trial sampled for
`name` — the same name always yields the same value, whatever candidate
list is re-declared at a use site.  Numeric hyperparameters are split by
type: integer-valued (`units`) and exact-rational-valued
(`learning_rate`). -/
structure HyperParams where
  natChoice : String → Nat
  ratChoice : String → Rat

/-- A layer-specification record for the tuner: `units` is a candidate
set rather than a fixed value. -/
structure TuneLayerSpec where
  units : List Nat
  activation : String
  input_shape : Option (List Nat) := none
  deriving Repr, DecidableEq

/-- The optimizer `__tf_build` compiles with: `opt = None`, replaced by
`Adam(hp.Choice("learning_rate", values=learning_rate))` when the
optimizer identifier is `"adam"`. -/
inductive TuneOptimizer where
  | adamOpt (learning_rate : Rat)
  | noneOpt
  deriving Repr, DecidableEq

/-- A model built by the tuner's hypermodel. -/
structure TuneModel where
  layers : List DenseLayer
  optimizer : TuneOptimizer
  loss : Option String
  metrics : Option (List String)
  deriving Repr, DecidableEq

/-- Embedding of the tuner's hypermodel `__tf_build` (src/hossam/tensor.py
lines 65-96): for every entry of `dense`, a `Dense` layer with
`units=hp.Choice("units", values=d["units"])` — the one shared
hyperparameter name `"units"` — and the entry's activation; `input_shape`
passed exactly when present.  Then compile with the optimizer and the
given loss/metrics. -/
def tf_build (dense : List TuneLayerSpec) (optimizer : String)
    (learning_rate : List Rat) (loss : Option String)
    (metrics : Option (List String)) (hp : HyperParams) : TuneModel :=
  { layers := dense.map (fun d =>
      { units := hp.natChoice "units", activation := d.activation,
        input_shape := d.input_shape }),
    optimizer :=
      if optimizer == "adam" then .adamOpt (hp.ratChoice "learning_rate")
      else .noneOpt,
    loss := loss, metrics := metrics }

/-- Embedding of `tf_tune`'s post-search selection (src/hossam/tensor.py
lines 112-119): `best_hps = tuner.get_best_hyperparameters()`; raise
`ValueError("No best hyperparameters found.")` when the list is empty,
otherwise return `tuner.hypermodel.build(best_hps[0])`. -/
def tf_tune_select (best_hps : List HyperParams)
    (build : HyperParams → TuneModel) : Except TfError TuneModel :=
  match best_hps with
  | [] => .error (.valueError "No best hyperparameters found.")
  | h :: _ => .ok (build h)

/-- Embedding of `my_tf_linear`'s layer-sequence derivation
(src/hossam/tensor.py lines 448-463): `for i, v in enumerate(dense_units)`
the first entry gets `input_shape=(x_train.shape[1],)` and `"relu"`, every
later entry `"relu"` without a shape, and a final
`dict(units=1, activation="linear")` is appended. -/
def my_tf_linear_dense (dense_units : List Nat) (feature_width : Nat) :
    List LayerSpec :=
  (dense_units.enum.map (fun p =>
    if p.1 == 0 then
      { units := p.2, activation := "relu", input_shape := some [feature_width] }
    else
      { units := p.2, activation := "relu", input_shape := none })) ++
  [{ units := 1, activation := "linear", input_shape := none }]

/-- A concrete persisted model, used to instantiate the model store in
closed statements. -/
def defaultStoredModel : CompiledModel :=
  { layers := [{ units := 8, activation := "relu", input_shape := some [4] }],
    optimizer := "adam", loss := "mse", metrics := ["mae"] }

/-- A concrete trial assignment, used to instantiate `HyperParams` in
closed statements. -/
def constHyperParams : HyperParams :=
  { natChoice := fun _ => 64, ratChoice := fun _ => 1 / 100 }

/-- Helper for the linear-orchestrator layer derivation: every entry of the
enumerated tail (indices starting at `k + 1`, hence nonzero) takes the
no-`input_shape` relu branch. -/
theorem my_tf_linear_tail_map (rest : List Nat) (n k : Nat) :
    (rest.enumFrom (k + 1)).map (fun p =>
      if p.1 == 0 then
        ({ units := p.2, activation := "relu", input_shape := some [n] } : LayerSpec)
      else { units := p.2, activation := "relu", input_shape := none }) =
    rest.map (fun v =>
      ({ units := v, activation := "relu", input_shape := none } : LayerSpec)) := by
  induction rest generalizing k with
  | nil => rfl
  | cons a l ih =>
    simp only [List.enumFrom, List.map]
    rw [ih (k + 1)]
    rfl

/-- C1: the claim expects the reporter to partition the keys
`["loss", "val_loss", "mae", "val_mae"]` into
`[["loss", "val_loss"], ["mae", "val_mae"]]` with 2 subplots; the code
does not. -/
theorem C1_counterexample :
    ¬ (tf_result_groups ["loss", "val_loss", "mae", "val_mae"] =
         [["loss", "val_loss"], ["mae", "val_mae"]] ∧
       tf_result_cols ["loss", "val_loss", "mae", "val_mae"] = 2) := by
  decide

/-- C1 (amended): for the metric keys
`["loss", "val_loss", "mae", "val_mae"]` the reporter computes the single
group `[["loss", "val_loss"]]` and requests exactly 1 subplot: the
grouping loop breaks at the first `val`-initial key, and the last key is
sliced off before grouping. -/
theorem C1_grouping :
    tf_result_groups ["loss", "val_loss", "mae", "val_mae"] =
      [["loss", "val_loss"]] ∧
    tf_result_subplot_count ["loss", "val_loss", "mae", "val_mae"] = .ok 1 := by
  constructor <;> rfl

/-- C2: the claim expects the reporter to produce the two singleton groups
`[["loss"], ["acc"]]` and 2 subplots from the keys `["loss", "acc"]`; the
code does not. -/
theorem C2_counterexample :
    ¬ (tf_result_groups ["loss", "acc"] = [["loss"], ["acc"]] ∧
       tf_result_cols ["loss", "acc"] = 2) := by
  decide

/-- C2 (amended): for the metric keys `["loss", "acc"]` the reporter
computes no groups at all — the last key is sliced off before grouping and
the loop over `range(0, s - 1)` with `s = 1` runs zero iterations — so the
subplot request is made with zero columns and fails. -/
theorem C2_grouping :
    tf_result_groups ["loss", "acc"] = [] ∧
    tf_result_subplot_count ["loss", "acc"] =
      .error (.valueError "Number of columns must be a positive integer") := by
  constructor <;> rfl

/-- C3: with a truthy checkpoint path the trainer's callback assembly
evaluates the identifier `ModelCheckpoint`, which is not bound in the
module scope of src/hossam/tensor.py (it is missing from the imported
callback names), so a `NameError` is raised and the fit call is never reached —
the claim's checkpoint callback (save-best-only, weights-only) is intended
but unreachable. -/
theorem C3_checkpoint_nameerror :
    tensorModuleScope.contains "ModelCheckpoint" = false ∧
    tf_train_fit true true (some "checkpoint.weights.h5") none 500 32 0 true =
      .error (.nameError "ModelCheckpoint") := by
  constructor <;> rfl

/-- C4: whenever no (truthy) model path is given and any of the
layer-specification list, the loss, or the metrics list is empty or
absent, `tf_create` returns the configuration `ValueError` and its
framework-call trace is empty — no layer is constructed and no framework
call is issued. -/
theorem C4_missing_args_valueerror (store : String → CompiledModel)
    (dense : List LayerSpec) (optimizer : String) (loss : Option String)
    (metrics : Option (List String)) (model_path : Option String)
    (hpath : truthyStr model_path = false)
    (hmiss : dense = [] ∨ truthyStr loss = false ∨ truthyList metrics = false) :
    tf_create store dense optimizer loss metrics model_path =
      (.error (.valueError "dense, loss, and metrics are required arguments"),
       []) := by
  rcases hmiss with h | h | h <;> simp [tf_create, hpath, h]

/-- C4 witness: the concrete call with no model path and an empty layer
list raises the configuration error with an empty call trace. -/
theorem C4_missing_args_witness :
    truthyStr (none : Option String) = false ∧
    (([] : List LayerSpec) = [] ∨ truthyStr (some "mse") = false ∨
      truthyList (some ["mae"]) = false) ∧
    tf_create (fun _ => defaultStoredModel) [] "adam" (some "mse")
        (some ["mae"]) none =
      (.error (.valueError "dense, loss, and metrics are required arguments"),
       []) :=
  ⟨rfl, Or.inl rfl,
    C4_missing_args_valueerror (fun _ => defaultStoredModel) [] "adam"
      (some "mse") (some ["mae"]) none rfl (Or.inl rfl)⟩

/-- C5: for every non-empty layer-specification sequence whose unique
`input_shape` entry sits at position 0, given a non-empty loss and a
non-empty metrics list and no model path, the built model has one layer
per specification and position-wise identical unit counts and
activations. -/
theorem C5_build_mirrors_specs (store : String → CompiledModel)
    (dense : List LayerSpec) (optimizer loss : String) (metrics : List String)
    (hshape : ∃ d0 rest, dense = d0 :: rest ∧ d0.input_shape.isSome = true ∧
      ∀ d ∈ rest, d.input_shape = none)
    (hloss : loss ≠ "") (hmetrics : metrics ≠ []) :
    ∃ m : CompiledModel,
      (tf_create store dense optimizer (some loss) (some metrics) none).1 =
        .ok m ∧
      m.layers.length = dense.length ∧
      m.layers.map DenseLayer.units = dense.map LayerSpec.units ∧
      m.layers.map DenseLayer.activation = dense.map LayerSpec.activation := by
  obtain ⟨d0, rest, hd, -, -⟩ := hshape
  refine ⟨{ layers := dense.map specToLayer, optimizer := optimizer,
            loss := loss, metrics := metrics }, ?_, ?_, ?_, ?_⟩
  · subst hd
    simp [tf_create, truthyStr, truthyList, hloss, hmetrics]
  · simp
  · rw [List.map_map]; rfl
  · rw [List.map_map]; rfl

/-- C5 witness: a two-layer specification (shape on the first entry only)
with loss `"mse"` and metrics `["mae"]` builds a model mirroring it. -/
theorem C5_build_mirrors_specs_witness :
    (∃ d0 rest,
      ([{ units := 4, activation := "relu", input_shape := some [10] },
        { units := 1, activation := "linear", input_shape := none }] :
          List LayerSpec) = d0 :: rest ∧
      d0.input_shape.isSome = true ∧ ∀ d ∈ rest, d.input_shape = none) ∧
    ("mse" : String) ≠ "" ∧ (["mae"] : List String) ≠ [] ∧
    ∃ m : CompiledModel,
      (tf_create (fun _ => defaultStoredModel)
        [{ units := 4, activation := "relu", input_shape := some [10] },
         { units := 1, activation := "linear", input_shape := none }]
        "adam" (some "mse") (some ["mae"]) none).1 = .ok m ∧
      m.layers.length =
        ([{ units := 4, activation := "relu", input_shape := some [10] },
          { units := 1, activation := "linear", input_shape := none }] :
            List LayerSpec).length ∧
      m.layers.map DenseLayer.units =
        ([{ units := 4, activation := "relu", input_shape := some [10] },
          { units := 1, activation := "linear", input_shape := none }] :
            List LayerSpec).map LayerSpec.units ∧
      m.layers.map DenseLayer.activation =
        ([{ units := 4, activation := "relu", input_shape := some [10] },
          { units := 1, activation := "linear", input_shape := none }] :
            List LayerSpec).map LayerSpec.activation :=
  ⟨⟨{ units := 4, activation := "relu", input_shape := some [10] },
    [{ units := 1, activation := "linear", input_shape := none }],
    rfl, rfl, by decide⟩, by decide, by decide,
   C5_build_mirrors_specs (fun _ => defaultStoredModel)
     [{ units := 4, activation := "relu", input_shape := some [10] },
      { units := 1, activation := "linear", input_shape := none }]
     "adam" "mse" ["mae"]
     ⟨{ units := 4, activation := "relu", input_shape := some [10] },
      [{ units := 1, activation := "linear", input_shape := none }],
      rfl, rfl, by decide⟩
     (by decide) (by decide)⟩

/-- C6: the claim quantifies over every non-null model path, but the code
tests Python truthiness: at the non-null empty-string path (with an empty
layer list) the builder raises the configuration `ValueError` instead of
bypassing validation and loading the persisted model. -/
theorem C6_counterexample :
    tf_create (fun _ => defaultStoredModel) [] "adam" (some "mse")
        (some ["mae"]) (some "") =
      (.error (.valueError "dense, loss, and metrics are required arguments"),
       []) ∧
    (tf_create (fun _ => defaultStoredModel) [] "adam" (some "mse")
        (some ["mae"]) (some "")).1 ≠ .ok defaultStoredModel :=
  ⟨rfl, fun h => Except.noConfusion h⟩

/-- C6 (amended): for every non-empty (truthy) model path — regardless of
the layer, loss and metrics arguments — the builder bypasses construction
and validation entirely and returns the model loaded from the persisted
store, issuing exactly the one load call. -/
theorem C6_load_bypasses (store : String → CompiledModel)
    (dense : List LayerSpec) (optimizer : String) (loss : Option String)
    (metrics : Option (List String)) (p : String) (hp : p ≠ "") :
    tf_create store dense optimizer loss metrics (some p) =
      (.ok (store p), [.loadModel p]) := by
  simp [tf_create, truthyStr, hp]

/-- C6 witness: loading `"model.h5"` with every other argument empty
returns the stored model untouched. -/
theorem C6_load_bypasses_witness :
    ("model.h5" : String) ≠ "" ∧
    tf_create (fun _ => defaultStoredModel) [] "adam" none none
        (some "model.h5") =
      (.ok defaultStoredModel, [.loadModel "model.h5"]) :=
  ⟨by decide,
   C6_load_bypasses (fun _ => defaultStoredModel) [] "adam" none none
     "model.h5" (by decide)⟩

/-- C7: with both callback flags off and no checkpoint or tensorboard
path, the fit procedure is invoked with an empty callback list. -/
theorem C7_empty_callbacks (epochs batch_size verbose : Nat)
    (has_x_test : Bool) :
    tf_train_fit false false none none epochs batch_size verbose has_x_test =
      .ok { epochs := epochs, batch_size := batch_size, callbacks := [],
            has_validation_data := has_x_test } := rfl

/-- C8: when the best-hyperparameters list is empty the tuner raises the
search-exhaustion `ValueError`; when at least one candidate exists it
returns the model built from the first (best) one. -/
theorem C8_tuner_select (best_hps : List HyperParams)
    (build : HyperParams → TuneModel) :
    (best_hps = [] → tf_tune_select best_hps build =
      .error (.valueError "No best hyperparameters found.")) ∧
    (∀ h rest, best_hps = h :: rest →
      tf_tune_select best_hps build = .ok (build h)) := by
  constructor
  · intro h; subst h; rfl
  · intro h rest hbh; subst hbh; rfl

/-- C8 witness: with the hypermodel over an empty layer list, the empty
candidate list raises and a singleton candidate list returns the built
model. -/
theorem C8_tuner_select_witness :
    tf_tune_select [] (tf_build [] "adam" [] none none) =
      .error (.valueError "No best hyperparameters found.") ∧
    tf_tune_select [constHyperParams] (tf_build [] "adam" [] none none) =
      .ok (tf_build [] "adam" [] none none constHyperParams) :=
  ⟨(C8_tuner_select [] (tf_build [] "adam" [] none none)).1 rfl,
   (C8_tuner_select [constHyperParams] (tf_build [] "adam" [] none none)).2
     constHyperParams [] rfl⟩

/-- C9: the linear-regression orchestrator turns any non-empty width list
and feature width `n` into a first relu entry carrying `input_shape (n,)`,
a relu entry per remaining width, and an appended single-unit linear
output entry; in particular `dense_units = [64, 32]` with width 10 gives
exactly the three-entry sequence the claim states. -/
theorem C9_linear_layer_sequence :
    (∀ (u : Nat) (rest : List Nat) (n : Nat),
      my_tf_linear_dense (u :: rest) n =
        { units := u, activation := "relu", input_shape := some [n] } ::
          (rest.map (fun v =>
            { units := v, activation := "relu", input_shape := none }) ++
           [{ units := 1, activation := "linear", input_shape := none }])) ∧
    my_tf_linear_dense [64, 32] 10 =
      [{ units := 64, activation := "relu", input_shape := some [10] },
       { units := 32, activation := "relu", input_shape := none },
       { units := 1, activation := "linear", input_shape := none }] := by
  constructor
  · intro u rest n
    unfold my_tf_linear_dense
    have h := my_tf_linear_tail_map rest n 0
    simp only [Nat.zero_add] at h
    simp only [List.enum, List.enumFrom, List.map, h]
    rfl
  · rfl

/-- C10: in every model built by the tuner's hypermodel, all dense layers
receive the same sampled unit count — the trial's value of the single
shared hyperparameter name `"units"` — so no trial can assign different
unit counts to different layers. -/
theorem C10_shared_units_choice (dense : List TuneLayerSpec)
    (optimizer : String) (learning_rate : List Rat) (loss : Option String)
    (metrics : Option (List String)) (hp : HyperParams) :
    (tf_build dense optimizer learning_rate loss metrics hp).layers.map
        DenseLayer.units =
      List.replicate dense.length (hp.natChoice "units") := by
  simp only [tf_build, List.map_map]
  induction dense with
  | nil => rfl
  | cons d l ih =>
    simp only [List.map, List.length_cons, List.replicate, ih]
    rfl
